import Mathlib

/-!
Shallow embedding of the go-insight Go SDK client
(package `goinsight`: `tracing.go`, `models.go`, client file).

Modelling conventions:
* Go interface values held in decoded JSON maps and in metadata maps are
  `GoVal` (string or number; numbers as `Int`, enough for the fields the
  SDK ever writes).
* Go pointers (`*TraceContext`) and Go maps (`map[string]interface{}`)
  are reference values: addresses into a `Store` with explicit
  allocation and write operations, so that in-place mutation and
  aliasing are visible.
* `context.Context` is a chain of key/value pairs; `context.WithValue`
  prepends, `ctx.Value` finds the most recent binding.
* The HTTP layer (`sendRequestWithResponse`) is abstracted as a
  `Transport` oracle mapping each outgoing `Request` to either a
  delivery/decoding error or a decoded JSON object; the list of
  `Request`s an operation issues is returned alongside its result, so
  "no network call" and "what was sent" are statable.
* A Go run-time panic (the unchecked type assertion
  `resp["id"].(string)`) is the `GoResult.fault` outcome.
* Wall-clock durations cannot be computed in the embedding; the elapsed
  milliseconds measured by `Instrument` are an explicit parameter.
-/

namespace GoInsight

/-- A Go `interface{}` value as stored in decoded JSON objects and
metadata maps. -/
inductive GoVal where
  | vStr (s : String)
  | vNum (n : Int)
deriving DecidableEq, Repr

/-- Lookup of a key in a decoded JSON object / Go map snapshot. -/
def lookupField : List (String × GoVal) → String → Option GoVal
  | [], _ => none
  | (k0, v) :: rest, k => if k0 = k then some v else lookupField rest k

/-- Go map assignment `m[k] = v`: replaces the binding if the key is
present, otherwise adds it. -/
def setKey : List (String × GoVal) → String → GoVal → List (String × GoVal)
  | [], k, v => [(k, v)]
  | (k0, v0) :: rest, k, v =>
      if k0 = k then (k, v) :: rest else (k0, v0) :: setKey rest k v

/-- `TraceContext` from models.go: the Carrier. -/
structure TraceContext where
  TraceID : String
  SpanID : String
deriving DecidableEq, Repr

/-- The mutable heap: cells for `*TraceContext` pointers and cells for
`map[string]interface{}` values.  Addresses are `Nat`; `nextCarrier` /
`nextMap` are the next fresh addresses. -/
structure Store where
  nextCarrier : Nat
  carrier : Nat → TraceContext
  nextMap : Nat
  map : Nat → List (String × GoVal)

/-- `&TraceContext{...}`: allocate a fresh carrier cell. -/
def Store.allocCarrier (σ : Store) (tc : TraceContext) : Store × Nat :=
  ({ σ with nextCarrier := σ.nextCarrier + 1,
            carrier := fun b => if b = σ.nextCarrier then tc else σ.carrier b },
   σ.nextCarrier)

/-- Write through a `*TraceContext` pointer. -/
def Store.writeCarrier (σ : Store) (a : Nat) (tc : TraceContext) : Store :=
  { σ with carrier := fun b => if b = a then tc else σ.carrier b }

/-- `make(map[string]interface{})` or a map literal: allocate a fresh
map cell. -/
def Store.allocMap (σ : Store) (l : List (String × GoVal)) : Store × Nat :=
  ({ σ with nextMap := σ.nextMap + 1,
            map := fun b => if b = σ.nextMap then l else σ.map b },
   σ.nextMap)

/-- In-place update of a Go map through its reference. -/
def Store.writeMap (σ : Store) (a : Nat) (l : List (String × GoVal)) : Store :=
  { σ with map := fun b => if b = a then l else σ.map b }

/-- A value bound in a `context.Context`: either a `*TraceContext`
pointer (the only value this SDK ever stores) or some foreign value. -/
inductive CtxVal where
  | carrier (addr : Nat)
  | other (tag : String)
deriving DecidableEq, Repr

/-- `context.Context`: most recent binding first. -/
abbrev Ctx := List (String × CtxVal)

/-- `context.WithValue ctx k v`. -/
def ctxWithValue (ctx : Ctx) (k : String) (v : CtxVal) : Ctx :=
  (k, v) :: ctx

/-- `ctx.Value(k)`. -/
def ctxValue : Ctx → String → Option CtxVal
  | [], _ => none
  | (k0, v) :: rest, k => if k0 = k then some v else ctxValue rest k

/-- `GetTraceFromContext` (tracing.go): reads the value under the key
"go-insight-trace" and type-asserts it (with the comma-ok form) to
`*TraceContext`; returns the pointer or nil. -/
def GetTraceFromContext (ctx : Ctx) : Option Nat :=
  match ctxValue ctx "go-insight-trace" with
  | some (CtxVal.carrier a) => some a
  | _ => none

/-- `LogEntry` from models.go.  `Metadata` holds the map contents as
marshalled at emission time (`none` for a nil map). -/
structure LogEntry where
  ServiceName : String
  LogLevel : String
  Message : String
  TraceID : String := ""
  SpanID : String := ""
  Metadata : Option (List (String × GoVal)) := none
deriving DecidableEq, Repr

/-- `MetricSource` from models.go. -/
structure MetricSource where
  Language : String := ""
  Framework : String := ""
  Version : String := ""
deriving DecidableEq, Repr

/-- `Metric` from models.go.  `Duration` is float64 in Go; the SDK only
carries it, so it is modelled as a rational. -/
structure Metric where
  ServiceName : String := ""
  Path : String := ""
  Method : String := ""
  StatusCode : Int := 0
  Duration : Rat := 0
  Source : MetricSource := {}
  Environment : String := ""
  RequestID : String := ""
  Metadata : Option (List (String × GoVal)) := none
deriving DecidableEq, Repr

/-- `Trace` from models.go. -/
structure Trace where
  ID : String := ""
  ServiceName : String
deriving DecidableEq, Repr

/-- `Span` from models.go. -/
structure Span where
  ID : String := ""
  TraceID : String
  ParentID : String := ""
  Service : String
  Operation : String
deriving DecidableEq, Repr

/-- One outgoing HTTP request to the collector, with its marshalled
payload. -/
inductive Request where
  | log (e : LogEntry)
  | metric (m : Metric)
  | createTrace (t : Trace)
  | createSpan (s : Span)
  | endSpan (spanID : String)
  | endTrace (traceID : String)
deriving DecidableEq, Repr

/-- The collector side of `sendRequestWithResponse`: for each request,
either a delivery/decoding failure (network error, timeout, non-2xx
status, undecodable body - taxonomy items c and d) or the decoded JSON
object of a 2xx response (ignored for the operations that decode no
response). -/
abbrev Transport := Request → Except String (List (String × GoVal))

/-- Collapse a transport outcome into the `error` return of an
operation that expects no response body. -/
def errOf : Except String (List (String × GoVal)) → Option String
  | Except.ok _ => none
  | Except.error e => some e

/-- The outcome of running a piece of Go code: an ordinary result, or an
uncatchable run-time fault (panic). -/
inductive GoResult (α : Type) where
  | ok (val : α)
  | fault (msg : String)
deriving DecidableEq, Repr

/-- The unchecked Go type assertion `v.(string)` applied to a JSON
object member: faults unless the member exists and is a string. -/
def assertString : Option GoVal → GoResult String
  | some (GoVal.vStr s) => GoResult.ok s
  | _ => GoResult.fault "interface conversion"

/-- The `Client` struct (non-HTTP fields; the embedded `http.Client`
lives behind `Transport`). -/
structure Client where
  apiKey : String
  endpoint : String
  serviceName : String
deriving DecidableEq, Repr

/-- `Client.Log`: builds a `LogEntry`, fills trace/span ids from the
context carrier when present, emits it.  Returns the requests issued
and the error result. -/
def Client.Log (c : Client) (tr : Transport) (σ : Store) (ctx : Ctx)
    (level message : String) (metadata : Option Nat) :
    List Request × Option String :=
  let tc := (GetTraceFromContext ctx).map σ.carrier
  let entry : LogEntry :=
    { ServiceName := c.serviceName
      LogLevel := level
      Message := message
      TraceID := match tc with | some t => t.TraceID | none => ""
      SpanID := match tc with | some t => t.SpanID | none => ""
      Metadata := metadata.map σ.map }
  ([Request.log entry], errOf (tr (Request.log entry)))

/-- One element of `LogError`'s `errAndMetadata ...interface{}` tail. -/
inductive LogArg where
  | err (msg : String)
  | metaMap (addr : Nat)
  | nilMap
  | otherArg
deriving DecidableEq, Repr

/-- The scanning loop of `Client.LogError`: each `error` argument is
assigned to `err`, each `map[string]interface{}` argument to
`metadata` (a nil map leaves `metadata` nil), in order. -/
def scanArgs (args : List LogArg) : Option String × Option Nat :=
  args.foldl
    (fun acc arg =>
      match arg with
      | LogArg.err m => (some m, acc.2)
      | LogArg.metaMap a => (acc.1, some a)
      | LogArg.nilMap => (acc.1, none)
      | LogArg.otherArg => acc)
    (none, none)

/-- `Client.LogError`: scans the variadic tail, allocates a fresh map
when none was supplied, injects the error message under "error" by an
in-place map write, then logs at ERROR level.  Returns the requests
issued, the post-state of the store, and the error result. -/
def Client.LogError (c : Client) (tr : Transport) (σ : Store) (ctx : Ctx)
    (message : String) (args : List LogArg) :
    List Request × Store × Option String :=
  let scanned := scanArgs args
  let alloc : Store × Nat :=
    match scanned.2 with
    | some a => (σ, a)
    | none => σ.allocMap []
  let σ1 := alloc.1
  let mAddr := alloc.2
  let σ2 :=
    match scanned.1 with
    | some m => σ1.writeMap mAddr (setKey (σ1.map mAddr) "error" (GoVal.vStr m))
    | none => σ1
  let sent := c.Log tr σ2 ctx "ERROR" message (some mAddr)
  (sent.1, σ2, sent.2)

/-- `Client.LogInfo`: fixes the level to INFO; the first optional map
(possibly nil) is used when supplied. -/
def Client.LogInfo (c : Client) (tr : Transport) (σ : Store) (ctx : Ctx)
    (message : String) (metadata : List (Option Nat)) :
    List Request × Option String :=
  c.Log tr σ ctx "INFO" message ((metadata.head?).getD none)

/-- `Client.SendMetric`: substitutes the client service name when the
metric has none, then emits. -/
def Client.SendMetric (c : Client) (tr : Transport) (metric : Metric) :
    List Request × Option String :=
  let m := if metric.ServiceName = ""
           then { metric with ServiceName := c.serviceName }
           else metric
  ([Request.metric m], errOf (tr (Request.metric m)))

/-- `Client.StartTrace` (tracing.go): create a trace, read its id with
an unchecked string assertion, allocate the carrier, create the root
span, read its id likewise, write the span id into the carrier, attach
the carrier to the context.  Result tuple mirrors the Go signature
`(context.Context, *TraceContext, error)` plus the store. -/
def Client.StartTrace (c : Client) (tr : Transport) (σ : Store) (ctx : Ctx)
    (operation : String) :
    List Request × GoResult (Store × Ctx × Option Nat × Option String) :=
  let trace : Trace := { ServiceName := c.serviceName }
  match tr (Request.createTrace trace) with
  | Except.error e => ([Request.createTrace trace], GoResult.ok (σ, ctx, none, some e))
  | Except.ok resp =>
    match assertString (lookupField resp "id") with
    | GoResult.fault m => ([Request.createTrace trace], GoResult.fault m)
    | GoResult.ok tid =>
      let alloc := σ.allocCarrier { TraceID := tid, SpanID := "" }
      let σ1 := alloc.1
      let addr := alloc.2
      let span : Span :=
        { TraceID := tid, Service := c.serviceName, Operation := operation }
      match tr (Request.createSpan span) with
      | Except.error e =>
          ([Request.createTrace trace, Request.createSpan span],
           GoResult.ok (σ1, ctx, some addr, some e))
      | Except.ok sresp =>
        match assertString (lookupField sresp "id") with
        | GoResult.fault m =>
            ([Request.createTrace trace, Request.createSpan span], GoResult.fault m)
        | GoResult.ok sid =>
          let σ2 := σ1.writeCarrier addr { TraceID := tid, SpanID := sid }
          let newCtx := ctxWithValue ctx "go-insight-trace" (CtxVal.carrier addr)
          ([Request.createTrace trace, Request.createSpan span],
           GoResult.ok (σ2, newCtx, some addr, none))

/-- `Client.StartSpan` (tracing.go): requires a carrier in the context;
creates a child span whose parent is the current span id, allocates a
fresh carrier with the new span id, attaches it. -/
def Client.StartSpan (c : Client) (tr : Transport) (σ : Store) (ctx : Ctx)
    (operation : String) :
    List Request × GoResult (Store × Ctx × Option String) :=
  match GetTraceFromContext ctx with
  | none => ([], GoResult.ok (σ, ctx, some "no trace context found"))
  | some a =>
    let tc := σ.carrier a
    let span : Span :=
      { TraceID := tc.TraceID, ParentID := tc.SpanID,
        Service := c.serviceName, Operation := operation }
    match tr (Request.createSpan span) with
    | Except.error e => ([Request.createSpan span], GoResult.ok (σ, ctx, some e))
    | Except.ok resp =>
      match assertString (lookupField resp "id") with
      | GoResult.fault m => ([Request.createSpan span], GoResult.fault m)
      | GoResult.ok sid =>
        let alloc := σ.allocCarrier { TraceID := tc.TraceID, SpanID := sid }
        let newCtx := ctxWithValue ctx "go-insight-trace" (CtxVal.carrier alloc.2)
        ([Request.createSpan span], GoResult.ok (alloc.1, newCtx, none))

/-- `Client.FinishSpan` (tracing.go): requires a carrier; asks the
collector to end the current span. -/
def Client.FinishSpan (_c : Client) (tr : Transport) (σ : Store) (ctx : Ctx) :
    List Request × Option String :=
  match GetTraceFromContext ctx with
  | none => ([], some "no trace context found")
  | some a =>
      ([Request.endSpan (σ.carrier a).SpanID],
       errOf (tr (Request.endSpan (σ.carrier a).SpanID)))

/-- `Client.FinishTrace` (tracing.go): requires a carrier; asks the
collector to end the trace. -/
def Client.FinishTrace (_c : Client) (tr : Transport) (σ : Store) (ctx : Ctx) :
    List Request × Option String :=
  match GetTraceFromContext ctx with
  | none => ([], some "no trace context found")
  | some a =>
      ([Request.endTrace (σ.carrier a).TraceID],
       errOf (tr (Request.endTrace (σ.carrier a).TraceID)))

/-- Steps 2-5 of the closure returned by `Client.Instrument`, run on the
(possibly span-augmented) context `spanCtx`: invoke `fn` once, emit the
completion log, then (the deferred block, which Go runs just before
returning) attempt `FinishSpan` and log its failure, finally return
`fn`'s error.  `durMs` is the measured elapsed milliseconds.  The first
component records each context `fn` was invoked on. -/
def instrumentAfterStart (c : Client) (tr : Transport) (operation : String)
    (fn : Ctx → Option String) (durMs : Int) (σ : Store) (spanCtx : Ctx) :
    List Ctx × List Request × Store × Option String :=
  let fnErr := fn spanCtx
  let logged : Store × List Request :=
    match fnErr with
    | some m =>
        let alloc := σ.allocMap
          [("operation", GoVal.vStr operation), ("duration_ms", GoVal.vNum durMs)]
        let sent := c.LogError tr alloc.1 spanCtx
          ("Operation failed: " ++ operation) [LogArg.err m, LogArg.metaMap alloc.2]
        (sent.2.1, sent.1)
    | none =>
        let alloc := σ.allocMap
          [("operation", GoVal.vStr operation), ("duration_ms", GoVal.vNum durMs)]
        let sent := c.LogInfo tr alloc.1 spanCtx
          ("Operation completed: " ++ operation) [some alloc.2]
        (alloc.1, sent.1)
  let fin := c.FinishSpan tr logged.1 spanCtx
  let finLogged : Store × List Request :=
    match fin.2 with
    | some fe =>
        let alloc := logged.1.allocMap [("operation", GoVal.vStr operation)]
        let sent := c.LogError tr alloc.1 spanCtx
          "Failed to finish span" [LogArg.err fe, LogArg.metaMap alloc.2]
        (sent.2.1, sent.1)
    | none => (logged.1, [])
  ([spanCtx], logged.2 ++ fin.1 ++ finLogged.2, finLogged.1, fnErr)

/-- `Client.Instrument`: the behaviour of one call of the returned
closure `g(ctx)`.  Step 1 attempts `StartSpan`; on failure the original
context is used.  A fault inside `StartSpan` propagates as a fault of
the call. -/
def Client.Instrument (c : Client) (tr : Transport) (operation : String)
    (fn : Ctx → Option String) (durMs : Int) (σ : Store) (ctx : Ctx) :
    GoResult (List Ctx × List Request × Store × Option String) :=
  let started := c.StartSpan tr σ ctx operation
  match started.2 with
  | GoResult.fault m => GoResult.fault m
  | GoResult.ok (σ1, newCtx, err1) =>
      let spanCtx := match err1 with
        | some _ => ctx
        | none => newCtx
      let body := instrumentAfterStart c tr operation fn durMs σ1 spanCtx
      GoResult.ok (body.1, started.1 ++ body.2.1, body.2.2.1, body.2.2.2)

/-- `pre` is a prefix of `s` (on the underlying character lists). -/
def strHasPre (s pre : String) : Bool :=
  pre.data.isPrefixOf s.data

/-- The completion logs of `Instrument` are exactly the log requests
whose message carries one of its two completion formats. -/
def isCompletionLog : Request → Bool
  | Request.log e =>
      strHasPre e.Message "Operation completed: " || strHasPre e.Message "Operation failed: "
  | _ => false

/-- An ERROR-level log request. -/
def isErrorLog : Request → Bool
  | Request.log e => e.LogLevel = "ERROR"
  | _ => false

/-! ### Concrete fixtures -/

/-- A demo client configuration. -/
def c0 : Client :=
  { apiKey := "k", endpoint := "http://collector", serviceName := "svc" }

/-- The empty heap. -/
def emptyStore : Store :=
  { nextCarrier := 0, carrier := fun _ => { TraceID := "", SpanID := "" },
    nextMap := 0, map := fun _ => [] }

/-- A collector that answers every request with 2xx and an empty JSON
object. -/
def trAllOk : Transport := fun _ => Except.ok []

/-- The stub collector of the end-to-end scenario: trace creation
returns id "t1", root-span creation (no parent) returns id "s1", child
span creation returns id "s2". -/
def trScenario : Transport := fun r =>
  match r with
  | Request.createTrace _ => Except.ok [("id", GoVal.vStr "t1")]
  | Request.createSpan s =>
      if s.ParentID = "" then Except.ok [("id", GoVal.vStr "s1")]
      else Except.ok [("id", GoVal.vStr "s2")]
  | _ => Except.ok []

/-- An always-succeeding wrapped operation. -/
def f0 : Ctx → Option String := fun _ => none

/-- A collector whose trace creation succeeds with id "t9" and whose
span creation fails. -/
def trC2 : Transport := fun r =>
  match r with
  | Request.createTrace _ => Except.ok [("id", GoVal.vStr "t9")]
  | Request.createSpan _ => Except.error "boom"
  | _ => Except.ok []

/-! ### Theorems -/

/-- C1: the claim fails on the code.  At the failing input - a collector
answering the create-trace request with a 2xx response whose JSON body
has no "id" member - `StartTrace` does not return an ordinary error
value: it reaches the unchecked type assertion on the decoded id and
raises an uncatchable run-time fault (Go panic). -/
theorem startTrace_faults_on_missing_id :
    (c0.StartTrace (fun _ => Except.ok []) emptyStore [] "op").2 =
      GoResult.fault "interface conversion" := rfl

/-- C2: if trace creation succeeds (response id `tid`) but root-span
creation fails with `e`, `StartTrace` returns exactly the original
context (the partially built carrier is not attached to it) together
with the span-creation error. -/
theorem startTrace_span_failure_returns_original_ctx
    (c : Client) (tr : Transport) (σ : Store) (ctx : Ctx) (op : String)
    (resp : List (String × GoVal)) (tid e : String)
    (h1 : tr (Request.createTrace { ServiceName := c.serviceName }) = Except.ok resp)
    (h2 : lookupField resp "id" = some (GoVal.vStr tid))
    (h3 : tr (Request.createSpan { TraceID := tid, Service := c.serviceName, Operation := op }) =
      Except.error e) :
    c.StartTrace tr σ ctx op =
      ([Request.createTrace { ServiceName := c.serviceName },
        Request.createSpan { TraceID := tid, Service := c.serviceName, Operation := op }],
       GoResult.ok ((σ.allocCarrier { TraceID := tid, SpanID := "" }).1, ctx,
                    some σ.nextCarrier, some e)) := by
  simp [Client.StartTrace, h1, h2, h3, assertString, Store.allocCarrier]

/-- Witness for C2 at a concrete collector. -/
theorem startTrace_span_failure_returns_original_ctx_witness :
    c0.StartTrace trC2 emptyStore [] "op" =
      ([Request.createTrace { ServiceName := c0.serviceName },
        Request.createSpan { TraceID := "t9", Service := c0.serviceName, Operation := "op" }],
       GoResult.ok ((emptyStore.allocCarrier { TraceID := "t9", SpanID := "" }).1, [],
                    some emptyStore.nextCarrier, some "boom")) :=
  startTrace_span_failure_returns_original_ctx c0 trC2 emptyStore [] "op"
    [("id", GoVal.vStr "t9")] "t9" "boom" rfl rfl rfl

/-- C6: on a context holding no carrier, `StartSpan`, `FinishSpan` and
`FinishTrace` all fail with the "no trace context" error and issue no
request to the collector. -/
theorem no_carrier_ops_fail_without_network
    (c : Client) (tr : Transport) (σ : Store) (ctx : Ctx) (op : String)
    (h : GetTraceFromContext ctx = none) :
    c.StartSpan tr σ ctx op = ([], GoResult.ok (σ, ctx, some "no trace context found"))
    ∧ c.FinishSpan tr σ ctx = ([], some "no trace context found")
    ∧ c.FinishTrace tr σ ctx = ([], some "no trace context found") := by
  refine ⟨?_, ?_, ?_⟩ <;>
    simp [Client.StartSpan, Client.FinishSpan, Client.FinishTrace, h]

/-- Witness for C6 on a context that carries an unrelated value but was
never touched by `StartTrace`. -/
theorem no_carrier_ops_fail_without_network_witness :
    c0.StartSpan trAllOk emptyStore [("req-id", CtxVal.other "42")] "op" =
      ([], GoResult.ok (emptyStore, [("req-id", CtxVal.other "42")],
                        some "no trace context found"))
    ∧ c0.FinishSpan trAllOk emptyStore [("req-id", CtxVal.other "42")] =
      ([], some "no trace context found")
    ∧ c0.FinishTrace trAllOk emptyStore [("req-id", CtxVal.other "42")] =
      ([], some "no trace context found") :=
  no_carrier_ops_fail_without_network c0 trAllOk emptyStore
    [("req-id", CtxVal.other "42")] "op" rfl

/-- The scenario run of `StartTrace` against the stub collector. -/
def startTraceScenario : List Request × GoResult (Store × Ctx × Option Nat × Option String) :=
  c0.StartTrace trScenario emptyStore [] "op"

/-- Store and context produced by the scenario `StartTrace`. -/
def scenarioState : Store × Ctx :=
  match startTraceScenario.2 with
  | GoResult.ok (σ, ctx, _, _) => (σ, ctx)
  | GoResult.fault _ => (emptyStore, [])

/-- The scenario run of `StartSpan` on the produced context. -/
def startSpanScenario : List Request × GoResult (Store × Ctx × Option String) :=
  c0.StartSpan trScenario scenarioState.1 scenarioState.2 "child"

/-- Store and context produced by the scenario `StartSpan`. -/
def childState : Store × Ctx :=
  match startSpanScenario.2 with
  | GoResult.ok (σ, ctx, _) => (σ, ctx)
  | GoResult.fault _ => (emptyStore, [])

/-- The carrier readable from a store/context pair. -/
def carrierOf (p : Store × Ctx) : Option TraceContext :=
  (GetTraceFromContext p.2).map p.1.carrier

/-- C7: end-to-end linkage.  `StartTrace` against the stub returning
"t1" then "s1" yields carrier {t1, s1}; the subsequent `StartSpan`
sends a create-span request whose parent field is "s1" and yields
carrier {t1, s2}. -/
theorem trace_then_span_linkage :
    carrierOf scenarioState = some { TraceID := "t1", SpanID := "s1" }
    ∧ startSpanScenario.1 =
        [Request.createSpan
          { TraceID := "t1", ParentID := "s1", Service := "svc", Operation := "child" }]
    ∧ carrierOf childState = some { TraceID := "t1", SpanID := "s2" } :=
  ⟨rfl, rfl, rfl⟩

/-- C9: `SendMetric` emits the metric with the client service name
substituted when the metric has an empty service name, and emits the
metric with every field unmodified when it has a non-empty one. -/
theorem sendMetric_service_name_substitution
    (c : Client) (tr : Transport) (m : Metric) :
    (m.ServiceName = "" →
      c.SendMetric tr m =
        ([Request.metric { m with ServiceName := c.serviceName }],
         errOf (tr (Request.metric { m with ServiceName := c.serviceName }))))
    ∧ (m.ServiceName ≠ "" →
      c.SendMetric tr m = ([Request.metric m], errOf (tr (Request.metric m)))) := by
  constructor <;> intro h <;> simp [Client.SendMetric, h]

/-- Witness for C9 at one blank-service metric and one named-service
metric. -/
theorem sendMetric_service_name_substitution_witness :
    c0.SendMetric trAllOk { Path := "/x" } =
      ([Request.metric { Path := "/x", ServiceName := "svc" }], none)
    ∧ c0.SendMetric trAllOk { ServiceName := "other", Path := "/x" } =
      ([Request.metric { ServiceName := "other", Path := "/x" }], none) := by
  constructor
  · exact (sendMetric_service_name_substitution c0 trAllOk { Path := "/x" }).1 rfl
  · exact (sendMetric_service_name_substitution c0 trAllOk
      { ServiceName := "other", Path := "/x" }).2 (by decide)

/-- The scan as the claim words it: the FIRST error and the FIRST
metadata map in the variadic tail win. -/
def scanArgsFirstWins (args : List LogArg) : Option String × Option Nat :=
  (args.findSome? fun a => match a with | LogArg.err m => some m | _ => none,
   args.findSome? fun a => match a with | LogArg.metaMap x => some x | _ => none)

/-- The `LogError` call with two error arguments "a" then "b". -/
def logErrorTwoErrs : List Request × Store × Option String :=
  c0.LogError trAllOk emptyStore [] "msg" [LogArg.err "a", LogArg.err "b"]

/-- C5 counterexample: with two error arguments, `LogError` injects the
message of the LAST one ("b"), not of the first ("a") as the claim
predicts. -/
theorem logError_first_error_does_not_win :
    logErrorTwoErrs.1 =
      [Request.log
        { ServiceName := "svc", LogLevel := "ERROR", Message := "msg",
          Metadata := some [("error", GoVal.vStr "b")] }]
    ∧ scanArgsFirstWins [LogArg.err "a", LogArg.err "b"] = (some "a", none)
    ∧ GoVal.vStr "b" ≠ GoVal.vStr "a" :=
  ⟨rfl, rfl, by decide⟩

/-- C5 as amended: the LAST error and the LAST metadata map of the
variadic tail win; and with one error and one map supplied, the two
argument orders produce identical results (same emitted `LogEntry`,
same post-state). -/
theorem logError_swap_equiv_and_last_wins
    (c : Client) (tr : Transport) (σ : Store) (ctx : Ctx) (msg e : String) (m : Nat) :
    c.LogError tr σ ctx msg [LogArg.err e, LogArg.metaMap m] =
      c.LogError tr σ ctx msg [LogArg.metaMap m, LogArg.err e]
    ∧ (∀ args x, (scanArgs (args ++ [LogArg.err x])).1 = some x)
    ∧ (∀ args x, (scanArgs (args ++ [LogArg.metaMap x])).2 = some x) := by
  refine ⟨rfl, ?_, ?_⟩ <;> intro args x <;>
    simp [scanArgs, List.foldl_append]

/-- Overwriting a key always makes it hold the new value. -/
theorem lookupField_setKey_same (l : List (String × GoVal)) (k : String) (v : GoVal) :
    lookupField (setKey l k v) k = some v := by
  induction l with
  | nil => simp [setKey, lookupField]
  | cons p rest ih =>
      obtain ⟨k0, v0⟩ := p
      by_cases h : k0 = k
      · simp [setKey, lookupField, h]
      · simp [setKey, lookupField, h, ih]

/-- C10: when the scan finds an error `e` and a caller-supplied map at
address `m`, `LogError` writes the entry `"error" = e` into that very
map cell (overwriting any prior "error" binding), so the caller
observes the modified map after the call. -/
theorem logError_writes_error_into_caller_map
    (c : Client) (tr : Transport) (σ : Store) (ctx : Ctx) (msg : String)
    (args : List LogArg) (e : String) (m : Nat)
    (hscan : scanArgs args = (some e, some m)) :
    (c.LogError tr σ ctx msg args).2.1.map m = setKey (σ.map m) "error" (GoVal.vStr e)
    ∧ lookupField ((c.LogError tr σ ctx msg args).2.1.map m) "error" =
      some (GoVal.vStr e) := by
  constructor
  · simp [Client.LogError, hscan, Store.writeMap]
  · simp [Client.LogError, hscan, Store.writeMap, lookupField_setKey_same]

/-- A heap whose map cell 0 already binds "error" and "a". -/
def mapStoreW : Store :=
  { nextCarrier := 0, carrier := fun _ => { TraceID := "", SpanID := "" },
    nextMap := 1, map := fun _ => [("error", GoVal.vStr "old"), ("a", GoVal.vNum 1)] }

/-- Witness for C10: the caller map at address 0 is mutated in place,
its stale "error" binding overwritten. -/
theorem logError_writes_error_into_caller_map_witness :
    (c0.LogError trAllOk mapStoreW [] "msg" [LogArg.err "boom", LogArg.metaMap 0]).2.1.map 0 =
      setKey (mapStoreW.map 0) "error" (GoVal.vStr "boom")
    ∧ lookupField
        ((c0.LogError trAllOk mapStoreW [] "msg" [LogArg.err "boom", LogArg.metaMap 0]).2.1.map 0)
        "error" = some (GoVal.vStr "boom") :=
  logError_writes_error_into_caller_map c0 trAllOk mapStoreW [] "msg"
    [LogArg.err "boom", LogArg.metaMap 0] "boom" 0 rfl

/-- C8: a successful `StartSpan` allocates a FRESH carrier cell (at the
next free address, bumping the allocation bound) holding {same trace
id, new span id}, attaches it to a new context, and leaves every
previously allocated carrier cell - in particular the one the input
context reads - unchanged in both fields. -/
theorem startSpan_preserves_existing_carriers
    (c : Client) (tr : Transport) (σ : Store) (ctx : Ctx) (op : String)
    (a : Nat) (resp : List (String × GoVal)) (sid : String)
    (hget : GetTraceFromContext ctx = some a)
    (ha : a < σ.nextCarrier)
    (hresp : tr (Request.createSpan
        { TraceID := (σ.carrier a).TraceID, ParentID := (σ.carrier a).SpanID,
          Service := c.serviceName, Operation := op }) = Except.ok resp)
    (hid : lookupField resp "id" = some (GoVal.vStr sid)) :
    c.StartSpan tr σ ctx op =
      ([Request.createSpan
          { TraceID := (σ.carrier a).TraceID, ParentID := (σ.carrier a).SpanID,
            Service := c.serviceName, Operation := op }],
       GoResult.ok
         ((σ.allocCarrier { TraceID := (σ.carrier a).TraceID, SpanID := sid }).1,
          ctxWithValue ctx "go-insight-trace" (CtxVal.carrier σ.nextCarrier),
          none))
    ∧ (σ.allocCarrier { TraceID := (σ.carrier a).TraceID, SpanID := sid }).1.nextCarrier =
        σ.nextCarrier + 1
    ∧ (σ.allocCarrier { TraceID := (σ.carrier a).TraceID, SpanID := sid }).1.carrier
        σ.nextCarrier = { TraceID := (σ.carrier a).TraceID, SpanID := sid }
    ∧ (∀ b, b < σ.nextCarrier →
        (σ.allocCarrier { TraceID := (σ.carrier a).TraceID, SpanID := sid }).1.carrier b =
          σ.carrier b)
    ∧ (σ.allocCarrier { TraceID := (σ.carrier a).TraceID, SpanID := sid }).1.carrier a =
        σ.carrier a
    ∧ GetTraceFromContext
        (ctxWithValue ctx "go-insight-trace" (CtxVal.carrier σ.nextCarrier)) =
        some σ.nextCarrier := by
  refine ⟨?_, rfl, ?_, ?_, ?_, rfl⟩
  · simp [Client.StartSpan, hget, hresp, hid, assertString, Store.allocCarrier]
  · simp [Store.allocCarrier]
  · intro b hb
    simp [Store.allocCarrier, Nat.ne_of_lt hb]
  · simp [Store.allocCarrier, Nat.ne_of_lt ha]

/-- A one-carrier heap for the C8 witness: cell 0 holds {t1, s1}. -/
def carrierStoreW : Store :=
  { nextCarrier := 1, carrier := fun _ => { TraceID := "t1", SpanID := "s1" },
    nextMap := 0, map := fun _ => [] }

/-- The context of the C8 witness, reading carrier cell 0. -/
def ctxW : Ctx := [("go-insight-trace", CtxVal.carrier 0)]

/-- Witness for C8 against the stub collector: the old carrier at cell 0
is untouched while a fresh cell 1 holds {t1, s2}. -/
theorem startSpan_preserves_existing_carriers_witness :
    c0.StartSpan trScenario carrierStoreW ctxW "child" =
      ([Request.createSpan
          { TraceID := (carrierStoreW.carrier 0).TraceID,
            ParentID := (carrierStoreW.carrier 0).SpanID,
            Service := c0.serviceName, Operation := "child" }],
       GoResult.ok
         ((carrierStoreW.allocCarrier
             { TraceID := (carrierStoreW.carrier 0).TraceID, SpanID := "s2" }).1,
          ctxWithValue ctxW "go-insight-trace" (CtxVal.carrier carrierStoreW.nextCarrier),
          none))
    ∧ (carrierStoreW.allocCarrier
         { TraceID := (carrierStoreW.carrier 0).TraceID, SpanID := "s2" }).1.nextCarrier =
        carrierStoreW.nextCarrier + 1
    ∧ (carrierStoreW.allocCarrier
         { TraceID := (carrierStoreW.carrier 0).TraceID, SpanID := "s2" }).1.carrier
        carrierStoreW.nextCarrier =
        { TraceID := (carrierStoreW.carrier 0).TraceID, SpanID := "s2" }
    ∧ (∀ b, b < carrierStoreW.nextCarrier →
        (carrierStoreW.allocCarrier
           { TraceID := (carrierStoreW.carrier 0).TraceID, SpanID := "s2" }).1.carrier b =
          carrierStoreW.carrier b)
    ∧ (carrierStoreW.allocCarrier
         { TraceID := (carrierStoreW.carrier 0).TraceID, SpanID := "s2" }).1.carrier 0 =
        carrierStoreW.carrier 0
    ∧ GetTraceFromContext
        (ctxWithValue ctxW "go-insight-trace" (CtxVal.carrier carrierStoreW.nextCarrier)) =
        some carrierStoreW.nextCarrier :=
  startSpan_preserves_existing_carriers c0 trScenario carrierStoreW ctxW "child"
    0 [("id", GoVal.vStr "s2")] "s2" rfl (by decide) rfl rfl

/-- A character list is a prefix of itself followed by anything. -/
theorem isPrefixOf_append_self (l r : List Char) : l.isPrefixOf (l ++ r) = true := by
  induction l with
  | nil => simp [List.isPrefixOf]
  | cons a as ih => simp [List.isPrefixOf, ih]

/-- Appending to a string preserves its prefixes. -/
theorem strHasPre_append (pre rest : String) : strHasPre (pre ++ rest) pre = true := by
  obtain ⟨l⟩ := pre
  obtain ⟨l2⟩ := rest
  simp [strHasPre, isPrefixOf_append_self]

/-- The span-finish failure message carries neither completion format. -/
theorem finish_msg_not_completed :
    strHasPre "Failed to finish span" "Operation completed: " = false := by decide

/-- The span-finish failure message carries neither completion format. -/
theorem finish_msg_not_failed :
    strHasPre "Failed to finish span" "Operation failed: " = false := by decide

/-- The log level of a log request (junk on other requests). -/
def logLevelOf : Request → String
  | Request.log e => e.LogLevel
  | _ => ""

/-- Metadata field of a log request (none on other requests). -/
def metaOf : Request → String → Option GoVal
  | Request.log e, k => lookupField (e.Metadata.getD []) k
  | _, _ => none

/-- `StartSpan` never issues a log request, so it contributes no
completion log. -/
theorem startSpan_requests_no_completion_logs
    (c : Client) (tr : Transport) (σ : Store) (ctx : Ctx) (op : String) :
    (c.StartSpan tr σ ctx op).1.filter isCompletionLog = [] := by
  simp only [Client.StartSpan]
  split
  · rfl
  · split
    · simp [isCompletionLog]
    · split
      · simp [isCompletionLog]
      · simp [isCompletionLog]

/-- Shape of the post-`StartSpan` part of one `Instrument` call: `fn`
is invoked exactly once on `spanCtx`; exactly one completion log is
emitted, INFO-level when `fn` succeeded and ERROR-level carrying the
failure message and the elapsed milliseconds when it failed; the
return value is `fn`'s error unchanged. -/
theorem instrumentAfterStart_spec (c : Client) (tr : Transport) (op : String)
    (fn : Ctx → Option String) (durMs : Int) (σ : Store) (sctx : Ctx) :
    (instrumentAfterStart c tr op fn durMs σ sctx).1 = [sctx]
    ∧ (instrumentAfterStart c tr op fn durMs σ sctx).2.2.2 = fn sctx
    ∧ ((instrumentAfterStart c tr op fn durMs σ sctx).2.1.filter isCompletionLog).length = 1
    ∧ (∀ r ∈ (instrumentAfterStart c tr op fn durMs σ sctx).2.1.filter isCompletionLog,
        (fn sctx = none → isErrorLog r = false ∧ logLevelOf r = "INFO")
        ∧ (∀ m, fn sctx = some m →
            isErrorLog r = true
            ∧ logLevelOf r = "ERROR"
            ∧ metaOf r "error" = some (GoVal.vStr m)
            ∧ metaOf r "duration_ms" = some (GoVal.vNum durMs))) := by
  rcases hg : GetTraceFromContext sctx with _ | a
  · cases hf : fn sctx <;>
      simp [instrumentAfterStart, Client.LogInfo, Client.LogError, Client.Log,
            Client.FinishSpan, scanArgs, Store.allocMap, Store.writeMap, setKey,
            lookupField, errOf, isCompletionLog, isErrorLog, logLevelOf, metaOf,
            hg, hf, strHasPre_append, finish_msg_not_completed, finish_msg_not_failed]
  · cases hf : fn sctx <;>
      rcases htr : tr (Request.endSpan ((σ.carrier a).SpanID)) with e | resp <;>
      simp [instrumentAfterStart, Client.LogInfo, Client.LogError, Client.Log,
            Client.FinishSpan, scanArgs, Store.allocMap, Store.writeMap, setKey,
            lookupField, errOf, isCompletionLog, isErrorLog, logLevelOf, metaOf,
            hg, hf, htr, strHasPre_append, finish_msg_not_completed, finish_msg_not_failed]

/-- C3 as amended: every non-faulting `Instrument` call invokes `fn`
exactly once on some context `sctx`, returns `fn`'s error unchanged,
and emits exactly one completion log - INFO-level (not ERROR) when `fn`
succeeded, ERROR-level carrying the failure message and the elapsed
milliseconds when it failed.  (A failed span-finish may additionally
emit a separate, non-completion ERROR log.) -/
theorem instrument_emits_one_completion_log
    (c : Client) (tr : Transport) (op : String) (fn : Ctx → Option String)
    (durMs : Int) (σ : Store) (ctx : Ctx)
    (calls : List Ctx) (reqs : List Request) (σ2 : Store) (ret : Option String)
    (h : c.Instrument tr op fn durMs σ ctx = GoResult.ok (calls, reqs, σ2, ret)) :
    ∃ sctx,
      calls = [sctx]
      ∧ ret = fn sctx
      ∧ (reqs.filter isCompletionLog).length = 1
      ∧ (∀ r ∈ reqs.filter isCompletionLog,
          (fn sctx = none → isErrorLog r = false ∧ logLevelOf r = "INFO")
          ∧ (∀ m, fn sctx = some m →
              isErrorLog r = true
              ∧ logLevelOf r = "ERROR"
              ∧ metaOf r "error" = some (GoVal.vStr m)
              ∧ metaOf r "duration_ms" = some (GoVal.vNum durMs))) := by
  simp only [Client.Instrument] at h
  rcases hs : (c.StartSpan tr σ ctx op).2 with ⟨σ1, newCtx, err1⟩ | m
  · rw [hs] at h
    rcases err1 with _ | e0
    · simp only [GoResult.ok.injEq, Prod.mk.injEq] at h
      obtain ⟨h1, h2, h3, h4⟩ := h
      subst h1
      subst h2
      subst h3
      subst h4
      obtain ⟨k1, k2, k3, k4⟩ := instrumentAfterStart_spec c tr op fn durMs σ1 newCtx
      refine ⟨newCtx, k1, k2, ?_, ?_⟩
      · rw [List.filter_append, startSpan_requests_no_completion_logs,
            List.nil_append, k3]
      · intro r hr
        rw [List.filter_append, startSpan_requests_no_completion_logs,
            List.nil_append] at hr
        exact k4 r hr
    · simp only [GoResult.ok.injEq, Prod.mk.injEq] at h
      obtain ⟨h1, h2, h3, h4⟩ := h
      subst h1
      subst h2
      subst h3
      subst h4
      obtain ⟨k1, k2, k3, k4⟩ := instrumentAfterStart_spec c tr op fn durMs σ1 ctx
      refine ⟨ctx, k1, k2, ?_, ?_⟩
      · rw [List.filter_append, startSpan_requests_no_completion_logs,
            List.nil_append, k3]
      · intro r hr
        rw [List.filter_append, startSpan_requests_no_completion_logs,
            List.nil_append] at hr
        exact k4 r hr
  · rw [hs] at h
    exact GoResult.noConfusion h

/-- Observable parts (contexts `fn` was called on, requests issued,
return value) of one `Instrument` call outcome. -/
def runParts : GoResult (List Ctx × List Request × Store × Option String) →
    List Ctx × List Request × Option String
  | GoResult.ok (calls, reqs, _, ret) => (calls, reqs, ret)
  | GoResult.fault _ => ([], [], none)

/-- The `Instrument` call of the C3 counterexample: a succeeding `fn`
on a context with no active trace, against an all-2xx collector. -/
def instrNoTraceRun : GoResult (List Ctx × List Request × Store × Option String) :=
  c0.Instrument trAllOk "op" f0 5 emptyStore []

/-- C3 counterexample: a concrete `Instrument` call whose `fn` returns
success (return value `none`) nevertheless emits an ERROR-level log
(the span-finish failure log), so "an INFO-level entry (and no ERROR
log) when f returns success" is false as stated. -/
theorem instrument_success_can_emit_error_log :
    (runParts instrNoTraceRun).2.2 = none
    ∧ ((runParts instrNoTraceRun).2.1.filter isErrorLog).length = 1 :=
  ⟨rfl, rfl⟩

/-- The outcome tuple of a traced `Instrument` run, used to instantiate
the amended C3 theorem. -/
def instrTracedParts : List Ctx × List Request × Store × Option String :=
  match c0.Instrument trScenario "child" f0 5 scenarioState.1 scenarioState.2 with
  | GoResult.ok p => p
  | GoResult.fault _ => ([], [], emptyStore, none)

/-- Witness for the amended C3 theorem on a concrete traced run. -/
theorem instrument_emits_one_completion_log_witness :
    ∃ sctx,
      instrTracedParts.1 = [sctx]
      ∧ instrTracedParts.2.2.2 = f0 sctx
      ∧ (instrTracedParts.2.1.filter isCompletionLog).length = 1
      ∧ (∀ r ∈ instrTracedParts.2.1.filter isCompletionLog,
          (f0 sctx = none → isErrorLog r = false ∧ logLevelOf r = "INFO")
          ∧ (∀ m, f0 sctx = some m →
              isErrorLog r = true
              ∧ logLevelOf r = "ERROR"
              ∧ metaOf r "error" = some (GoVal.vStr m)
              ∧ metaOf r "duration_ms" = some (GoVal.vNum 5))) :=
  instrument_emits_one_completion_log c0 trScenario "child" f0 5
    scenarioState.1 scenarioState.2
    instrTracedParts.1 instrTracedParts.2.1 instrTracedParts.2.2.1 instrTracedParts.2.2.2
    rfl

/-- The completion entry `Instrument` emits when the context holds no
carrier, as the code constructs it (trace/span ids empty, metadata the
literal map, plus the injected error message on failure). -/
def noTraceCompletionEntry (c : Client) (op : String) (fnErr : Option String)
    (durMs : Int) : LogEntry :=
  match fnErr with
  | none =>
      { ServiceName := c.serviceName, LogLevel := "INFO",
        Message := "Operation completed: " ++ op,
        Metadata := some [("operation", GoVal.vStr op),
                          ("duration_ms", GoVal.vNum durMs)] }
  | some m =>
      { ServiceName := c.serviceName, LogLevel := "ERROR",
        Message := "Operation failed: " ++ op,
        Metadata := some [("operation", GoVal.vStr op),
                          ("duration_ms", GoVal.vNum durMs),
                          ("error", GoVal.vStr m)] }

/-- C4: `Instrument` on a context with no active trace still calls `fn`
exactly once with the original context, still emits exactly one
completion log, and the attempt to finish the span is a safe no-op: the
requests issued are exactly the completion log and one span-finish
ERROR log - no collector call for the span itself - and the return
value is `fn`'s result unchanged. -/
theorem instrument_no_trace_degrades
    (c : Client) (tr : Transport) (σ : Store) (ctx : Ctx) (op : String)
    (fn : Ctx → Option String) (durMs : Int)
    (h : GetTraceFromContext ctx = none) :
    runParts (c.Instrument tr op fn durMs σ ctx) =
      ([ctx],
       [Request.log (noTraceCompletionEntry c op (fn ctx) durMs),
        Request.log
          { ServiceName := c.serviceName, LogLevel := "ERROR",
            Message := "Failed to finish span",
            Metadata := some [("operation", GoVal.vStr op),
                              ("error", GoVal.vStr "no trace context found")] }],
       fn ctx)
    ∧ isCompletionLog (Request.log (noTraceCompletionEntry c op (fn ctx) durMs)) = true := by
  cases hf : fn ctx <;>
    simp [runParts, Client.Instrument, Client.StartSpan, instrumentAfterStart,
          Client.LogInfo, Client.LogError, Client.Log, Client.FinishSpan,
          scanArgs, Store.allocMap, Store.writeMap, setKey, lookupField, errOf,
          noTraceCompletionEntry, isCompletionLog, strHasPre_append, h, hf]

/-- Witness for C4 on a concrete traceless context. -/
theorem instrument_no_trace_degrades_witness :
    runParts (c0.Instrument trAllOk "op2" f0 7 emptyStore []) =
      ([[]],
       [Request.log (noTraceCompletionEntry c0 "op2" (f0 []) 7),
        Request.log
          { ServiceName := c0.serviceName, LogLevel := "ERROR",
            Message := "Failed to finish span",
            Metadata := some [("operation", GoVal.vStr "op2"),
                              ("error", GoVal.vStr "no trace context found")] }],
       f0 [])
    ∧ isCompletionLog (Request.log (noTraceCompletionEntry c0 "op2" (f0 []) 7)) = true :=
  instrument_no_trace_degrades c0 trAllOk emptyStore [] "op2" f0 7 rfl

end GoInsight
